import Mathlib

/-!
# Verification of the DeepStack branding classification engine

Shallow embedding of the two classifiers in
`src/deepstack_branding_collector.py` (`classify_colors`, `classify_fonts`).

Modelling conventions:
* Python dicts (which iterate in insertion order) are embedded as association
  lists `List (String × _)`; `dict.get(k, default)` on the bundle level is an
  `Option` field read with `Option.getD`.
* Python sets used only for membership (`classified_colors`,
  `classified_fonts`) are `List String` with membership-guarded insertion.
* Confidence constants (Python floats `0.95`, `0.90`, ...) are stored in
  hundredths as `Nat` (`95`, `90`, ...): the code only ever assigns and
  compares these constants, so the scaling is faithful.
* The regex patterns in the source are all literal words, and `re.search`
  on a literal is substring containment; `r'-\d+$'` is "ends with a dash
  followed by one or more digits", embedded directly.
* `str.lower` is embedded as `lowerStr` (character-wise ASCII lowering;
  the inputs are ASCII CSS identifiers and font names).
-/

/-- `pat` is a leading segment of `s` (character lists). -/
def charsStart : List Char → List Char → Bool
  | [], _ => true
  | _ :: _, [] => false
  | a :: as, b :: bs => a = b && charsStart as bs

/-- `pat` occurs contiguously somewhere in `s` (character lists). -/
def charsAnywhere (pat : List Char) : List Char → Bool
  | [] => charsStart pat []
  | c :: cs => charsStart pat (c :: cs) || charsAnywhere pat cs

/-- Substring containment: embeds Python's `pat in s` / `re.search(literal, s)`. -/
def substrB (pat s : String) : Bool :=
  charsAnywhere pat.toList s.toList

/-- Python `str.lower` (ASCII inputs), as a structurally recursive map over
the character list. -/
def lowerStr (s : String) : String :=
  ⟨s.toList.map Char.toLower⟩

/-- `any(re.search(p, s) for p in pats)` for literal patterns. -/
def matchesAny (pats : List String) (s : String) : Bool :=
  pats.any (fun p => substrB p s)

/-- Python's default `str.strip()` whitespace set. -/
def pySpace (c : Char) : Bool :=
  c = ' ' || c = '\t' || c = '\n' || c = '\r' || c = '\x0b' || c = '\x0c'

/-- Strip characters satisfying `p` from both ends (Python `str.strip`). -/
def stripBy (p : Char → Bool) (s : String) : String :=
  ⟨((s.toList.dropWhile p).reverse.dropWhile p).reverse⟩

/-- Embeds `re.search(r'-\d+$', s)`: `s` ends in a dash followed by digits. -/
def endsDashNum (s : String) : Bool :=
  let r := s.toList.reverse
  let ds := r.takeWhile (fun c => c.isDigit)
  decide (ds ≠ []) && decide ((r.drop ds.length).head? = some '-')

/-- First-match association-list lookup (Python dict read). -/
def alookup {β : Type} (k : String) : List (String × β) → Option β
  | [] => none
  | p :: ps => if p.1 = k then some p.2 else alookup k ps

/-- Python `set.add`: insert if not present (only membership is ever used). -/
def addClassified (v : String) (cs : List String) : List String :=
  if v ∈ cs then cs else v :: cs

/-! ## Color classifier data model -/

/-- One entry of `confidence_scores` in `classify_colors`:
`{"role": ..., "confidence": ..., "evidence": [...]}` (confidence in hundredths). -/
structure ColorRecord where
  role : String
  confidence : Nat
  evidence : List String
deriving DecidableEq

/-- The fixed utility slots of the color classification. -/
structure UtilitySlots where
  success : Option String
  error : Option String
  warning : Option String
  info : Option String
deriving DecidableEq

/-- The `classification` dict built by `classify_colors`. -/
structure ColorClassification where
  primary : List String
  accents : List String
  neutrals : List String
  utility : UtilitySlots
deriving DecidableEq

/-- The mutable state threaded through `classify_colors`:
the classification under construction, the `confidence_scores` dict
(insertion-ordered), and the `classified_colors` set. -/
structure ColorState where
  classification : ColorClassification
  confidence : List (String × ColorRecord)
  classified : List String
deriving DecidableEq

def primary_patterns : List String := ["primary", "brand", "main", "hero"]
def accent_patterns : List String := ["accent", "secondary", "highlight", "alt"]
def neutral_patterns : List String := ["gray", "grey", "black", "white", "neutral"]
def success_patterns : List String := ["success", "positive"]
def error_patterns : List String := ["error", "danger", "negative"]
def warning_patterns : List String := ["warning", "caution", "alert"]
def info_patterns : List String := ["info", "notice"]
def color_name_patterns : List String :=
  ["color-red", "color-orange", "color-yellow", "color-green",
   "color-blue", "color-purple", "color-pink", "color-teal",
   "color-magenta", "color-cyan"]

/-- `any(modifier in var_lower for modifier in ['-light', '-dark', '-lighter', '-darker'])`. -/
def hasModifier (lo : String) : Bool :=
  ["-light", "-dark", "-lighter", "-darker"].any (fun m => substrB m lo)

/-- `if role and color_value not in confidence_scores: confidence_scores[...] = ...`.
Insertion at the end of the association list models Python dict insertion order. -/
def recordIfAbsentC (v : String) (r : ColorRecord) (st : ColorState) : ColorState :=
  if (alookup v st.confidence).isSome then st
  else { st with confidence := st.confidence ++ [(v, r)] }

/-- Pass 1 body of `classify_colors` for one `(var_name, color_value)` pair
(lines 199-274 of the source): an elif ladder over the pattern groups.
In the three list-bucket branches the append is guarded by membership in
`classified_colors`; in the four utility branches the slot is assigned
unconditionally and the value is added to `classified_colors` unconditionally,
exactly as in the source. -/
def pass1Step (st : ColorState) (nv : String × String) : ColorState :=
  let name := nv.1
  let v := nv.2
  let lo := lowerStr name
  let ev := ["CSS variable name: " ++ name]
  if matchesAny primary_patterns lo then
    let st1 :=
      if v ∈ st.classified then st
      else { st with
              classification := { st.classification with
                primary := st.classification.primary ++ [v] },
              classified := addClassified v st.classified }
    recordIfAbsentC v ⟨"primary", 95, ev⟩ st1
  else if matchesAny accent_patterns lo then
    let st1 :=
      if v ∈ st.classified then st
      else { st with
              classification := { st.classification with
                accents := st.classification.accents ++ [v] },
              classified := addClassified v st.classified }
    recordIfAbsentC v ⟨"accent", 90, ev⟩ st1
  else if matchesAny neutral_patterns lo then
    let st1 :=
      if v ∈ st.classified then st
      else { st with
              classification := { st.classification with
                neutrals := st.classification.neutrals ++ [v] },
              classified := addClassified v st.classified }
    recordIfAbsentC v ⟨"neutral", 95, ev⟩ st1
  else if matchesAny success_patterns lo then
    let st1 := { st with
      classification := { st.classification with
        utility := { st.classification.utility with success := some v } },
      classified := addClassified v st.classified }
    recordIfAbsentC v ⟨"utility_success", 90, ev⟩ st1
  else if matchesAny error_patterns lo then
    let st1 := { st with
      classification := { st.classification with
        utility := { st.classification.utility with error := some v } },
      classified := addClassified v st.classified }
    recordIfAbsentC v ⟨"utility_error", 90, ev⟩ st1
  else if matchesAny warning_patterns lo then
    let st1 := { st with
      classification := { st.classification with
        utility := { st.classification.utility with warning := some v } },
      classified := addClassified v st.classified }
    recordIfAbsentC v ⟨"utility_warning", 90, ev⟩ st1
  else if matchesAny info_patterns lo then
    let st1 := { st with
      classification := { st.classification with
        utility := { st.classification.utility with info := some v } },
      classified := addClassified v st.classified }
    recordIfAbsentC v ⟨"utility_info", 85, ev⟩ st1
  else if matchesAny color_name_patterns lo then
    if !hasModifier lo && !endsDashNum lo then
      let st1 :=
        if v ∈ st.classified then st
        else { st with
                classification := { st.classification with
                  accents := st.classification.accents ++ [v] },
                classified := addClassified v st.classified }
      recordIfAbsentC v ⟨"accent", 85, ev ++ ["Named color variable"]⟩ st1
    else st
  else st

def important_selectors : List String :=
  ["h1", "h2", "button", "[class*=\"primary\"]", ".hero"]
def accent_selectors : List String := ["[class*=\"secondary\"]", "a"]

/-- Pass 2 body of `classify_colors` for one `(prop, color_value)` pair under a
given selector (lines 277-318 of the source). The source uses two sequential
`if` blocks with the second guarded by `not role`; since `important_selectors`
and `accent_selectors` share no element, that is equivalent to this else-if. -/
def pass2Prop (frequency : List (String × Nat)) (selector : String)
    (st : ColorState) (pv : String × String) : ColorState :=
  let prop := pv.1
  let v := pv.2
  if v ∈ st.classified then st
  else
    let evHead := "Found in " ++ selector ++ "." ++ prop
    let fc := (alookup v frequency).getD 0
    if selector ∈ important_selectors ∧ 5 ≤ fc then
      let ev := [evHead, "High frequency: " ++ toString fc ++ " uses",
                 "Used in important element: " ++ selector]
      let st1 :=
        if v ∈ st.classification.primary then st
        else { st with
                classification := { st.classification with
                  primary := st.classification.primary ++ [v] },
                classified := addClassified v st.classified }
      recordIfAbsentC v ⟨"primary", 75, ev⟩ st1
    else if selector ∈ accent_selectors ∧ 2 ≤ fc ∧ fc < 10 then
      let ev := [evHead, "Moderate frequency: " ++ toString fc ++ " uses",
                 "Used in accent element: " ++ selector]
      let st1 :=
        if v ∈ st.classification.accents then st
        else { st with
                classification := { st.classification with
                  accents := st.classification.accents ++ [v] },
                classified := addClassified v st.classified }
      recordIfAbsentC v ⟨"accent", 65, ev⟩ st1
    else st

/-- Pass 2 over one selector's style dict. -/
def pass2Sel (frequency : List (String × Nat)) (st : ColorState)
    (sp : String × List (String × String)) : ColorState :=
  sp.2.foldl (pass2Prop frequency sp.1) st

/-- The `color_palette` argument of `classify_colors`; `none` models an
absent key, read via `.get(key, {})`. (`primary_colors` and
`computed_colors` also live in this dict in the source but are not read by
`classify_colors`.) -/
structure ColorPalette where
  css_custom_properties : Option (List (String × String))
  color_frequency : Option (List (String × Nat))
deriving DecidableEq

def initColorState : ColorState :=
  ⟨⟨[], [], [], ⟨none, none, none, none⟩⟩, [], []⟩

/-- Both passes of `classify_colors`, started from an arbitrary state. -/
def colorPassesFrom (st : ColorState) (color_palette : ColorPalette)
    (computed_colors_dict : List (String × List (String × String))) : ColorState :=
  let css_vars := color_palette.css_custom_properties.getD []
  let frequency := color_palette.color_frequency.getD []
  let st1 := css_vars.foldl pass1Step st
  computed_colors_dict.foldl (pass2Sel frequency) st1

/-- State of `classify_colors` just before the final truncation. -/
def colorPasses (color_palette : ColorPalette)
    (computed_colors_dict : List (String × List (String × String))) : ColorState :=
  colorPassesFrom initColorState color_palette computed_colors_dict

/-- Return value of `classify_colors`. -/
structure ColorResult where
  color_classification : ColorClassification
  confidence_scores : List (String × ColorRecord)
deriving DecidableEq

/-- `classify_colors` (source lines 151-328): two passes, then truncation of
`primary` to 2, `accents` to 8 and `neutrals` to 5. -/
def classify_colors (color_palette : ColorPalette)
    (computed_colors_dict : List (String × List (String × String))) : ColorResult :=
  let st := colorPasses color_palette computed_colors_dict
  { color_classification := { st.classification with
      primary := st.classification.primary.take 2,
      accents := st.classification.accents.take 8,
      neutrals := st.classification.neutrals.take 5 },
    confidence_scores := st.confidence }

/-! ## Font classifier data model -/

/-- One entry of `confidence_scores` in `classify_fonts`. The two optional
fields model the keys added by the typeface-hierarchy enrichment loop:
`none` means the key is absent; `sample_size = some none` means the key is
present with Python value `None`. -/
structure FontRecord where
  role : String
  confidence : Nat
  evidence : List String
  used_in_elements : Option (List String)
  sample_size : Option (Option String)
deriving DecidableEq

/-- The `classification` dict built by `classify_fonts`. -/
structure FontClassification where
  primary_heading : Option String
  body_text : Option String
  accent_display : List String
  monospace_code : Option String
deriving DecidableEq

/-- Mutable state of `classify_fonts`. -/
structure FontState where
  classification : FontClassification
  confidence : List (String × FontRecord)
  classified : List String
deriving DecidableEq

/-- One value of `typeface_hierarchy`: `{'used_in': [...], 'sample_size': ...}`,
each key possibly absent (read via `.get`). -/
structure UsageInfo where
  used_in : Option (List String)
  sample_size : Option String
deriving DecidableEq

/-- The `typography` argument of `classify_fonts`; only `typeface_hierarchy`
is read (via `.get('typeface_hierarchy', {})`). -/
structure Typography where
  typeface_hierarchy : Option (List (String × UsageInfo))
deriving DecidableEq

/-- One value of the per-selector style map; only `fontFamily` is read
(via `styles.get('fontFamily', '')`). -/
structure StyleRecord where
  fontFamily : Option String
deriving DecidableEq

/-- `font_family.split(',')[0].strip().strip('"').strip("'")`: the cleaned
font name (`split(',')[0]` is the run of characters before the first comma,
or the whole string when there is none). -/
def cleanFont (s : String) : String :=
  let first : String := ⟨s.toList.takeWhile (fun c => c ≠ ',')⟩
  stripBy (fun c => c = '\'') (stripBy (fun c => c = '"') (stripBy pySpace first))

/-- Python truthiness of an optional string slot (`not classification[slot]`
is true for `None` and for the empty string). -/
def pyFalsyOpt : Option String → Bool
  | none => true
  | some s => s = ""

/-- Record insertion for fonts, same guarded-append idiom as for colors. -/
def recordIfAbsentF (k : String) (r : FontRecord) (st : FontState) : FontState :=
  if (alookup k st.confidence).isSome then st
  else { st with confidence := st.confidence ++ [(k, r)] }

/-- Loop body of `classify_fonts` for one `(selector, styles)` pair
(source lines 358-409). Note: the skip test compares the *raw*
`font_family` string against `classified_fonts`, which holds *cleaned*
names, exactly as in the source. -/
def fontStep (st : FontState) (entry : String × StyleRecord) : FontState :=
  let selector := entry.1
  let font_family := entry.2.fontFamily.getD ""
  if font_family = "" ∨ font_family ∈ st.classified then st
  else
    let font_clean := cleanFont font_family
    let ev := ["Used in: " ++ selector]
    if selector ∈ ["h1", "h2", "h3"] ∧ pyFalsyOpt st.classification.primary_heading then
      let st1 := { st with
        classification := { st.classification with primary_heading := some font_clean },
        classified := addClassified font_clean st.classified }
      recordIfAbsentF font_clean
        ⟨"primary_heading", 90, ev ++ ["Used in primary headings"], none, none⟩ st1
    else if selector ∈ ["body", "p"] ∧ pyFalsyOpt st.classification.body_text then
      let st1 := { st with
        classification := { st.classification with body_text := some font_clean },
        classified := addClassified font_clean st.classified }
      recordIfAbsentF font_clean
        ⟨"body_text", 95, ev ++ ["Used in body text"], none, none⟩ st1
    else if substrB "mono" (lowerStr font_family) ∨ substrB "code" (lowerStr font_family) then
      let st1 := { st with
        classification := { st.classification with monospace_code := some font_clean },
        classified := addClassified font_clean st.classified }
      recordIfAbsentF font_clean
        ⟨"monospace", 90, ev ++ ["Monospace font family detected"], none, none⟩ st1
    else if selector ∈ ["button", ".btn", "nav", "strong"] ∧ font_clean ∉ st.classified then
      if st.classification.primary_heading = some font_clean ∨
         st.classification.body_text = some font_clean then st
      else
        let st1 := { st with
          classification := { st.classification with
            accent_display := st.classification.accent_display ++ [font_clean] },
          classified := addClassified font_clean st.classified }
        recordIfAbsentF font_clean
          ⟨"accent", 70, ev ++ ["Used in special element: " ++ selector], none, none⟩ st1
    else st

/-- Enrichment loop body (source lines 415-419): where the cleaned family
name has a confidence record, set its `used_in_elements` and `sample_size`
keys from the usage info. -/
def enrichStep (st : FontState) (entry : String × UsageInfo) : FontState :=
  let font_clean := cleanFont entry.1
  { st with confidence := st.confidence.map (fun p =>
      if p.1 = font_clean then
        (p.1, { p.2 with
                  used_in_elements := some (entry.2.used_in.getD []),
                  sample_size := some entry.2.sample_size })
      else p) }

def initFontState : FontState := ⟨⟨none, none, [], none⟩, [], []⟩

/-- `classify_fonts` main pass, truncation and enrichment, started from an
arbitrary state. -/
def fontPassFrom (st : FontState) (typography : Typography)
    (typography_data : List (String × StyleRecord)) : FontState :=
  let typeface_hierarchy := typography.typeface_hierarchy.getD []
  let st1 := typography_data.foldl fontStep st
  let st2 := { st1 with classification := { st1.classification with
    accent_display := st1.classification.accent_display.take 3 } }
  typeface_hierarchy.foldl enrichStep st2

/-- Return value of `classify_fonts`. -/
structure FontResult where
  font_classification : FontClassification
  confidence_scores : List (String × FontRecord)
deriving DecidableEq

/-- `classify_fonts` (source lines 331-424). -/
def classify_fonts (typography : Typography)
    (typography_data : List (String × StyleRecord)) : FontResult :=
  let st := fontPassFrom initFontState typography typography_data
  ⟨st.classification, st.confidence⟩

/-! ## General lemmas -/

/-- Fold invariant principle. -/
theorem foldl_inv {α β : Type} {P : β → Prop} (f : β → α → β) :
    ∀ (l : List α) (init : β), P init →
      (∀ b a, a ∈ l → P b → P (f b a)) → P (l.foldl f init)
  | [], _, h0, _ => h0
  | a :: l, init, h0, hstep =>
    foldl_inv f l (f init a) (hstep init a (List.mem_cons_self a l) h0)
      (fun b x hx hb => hstep b x (List.mem_cons_of_mem a hx) hb)

theorem alookup_append_some {β : Type} {k : String} {r : β}
    {l₁ : List (String × β)} (l₂ : List (String × β))
    (h : alookup k l₁ = some r) : alookup k (l₁ ++ l₂) = some r := by
  induction l₁ with
  | nil => simp [alookup] at h
  | cons p ps ih =>
    by_cases hk : p.1 = k
    · simp only [alookup, List.cons_append, if_pos hk] at h ⊢
      exact h
    · simp only [alookup, List.cons_append, if_neg hk] at h ⊢
      exact ih h

theorem alookup_append_none {β : Type} {k : String}
    {l₁ : List (String × β)} (l₂ : List (String × β))
    (h : alookup k l₁ = none) : alookup k (l₁ ++ l₂) = alookup k l₂ := by
  induction l₁ with
  | nil => simp
  | cons p ps ih =>
    by_cases hk : p.1 = k
    · simp [alookup, if_pos hk] at h
    · simp only [alookup, List.cons_append, if_neg hk] at h ⊢
      exact ih h

theorem mem_addClassified_of_mem {v w : String} {cs : List String}
    (h : v ∈ cs) : v ∈ addClassified w cs := by
  unfold addClassified
  split
  · exact h
  · exact List.mem_cons_of_mem w h

/-! ## Color classifier lemmas -/

theorem recordIfAbsentC_classification (v : String) (r : ColorRecord) (st : ColorState) :
    (recordIfAbsentC v r st).classification = st.classification := by
  unfold recordIfAbsentC; split <;> rfl

theorem recordIfAbsentC_classified (v : String) (r : ColorRecord) (st : ColorState) :
    (recordIfAbsentC v r st).classified = st.classified := by
  unfold recordIfAbsentC; split <;> rfl

theorem recordIfAbsentC_lookup_some {st : ColorState} {k : String} {s : ColorRecord}
    (v : String) (r : ColorRecord) (h : alookup k st.confidence = some s) :
    alookup k (recordIfAbsentC v r st).confidence = some s := by
  unfold recordIfAbsentC
  split
  · exact h
  · exact alookup_append_some _ h

/-- The concatenation of the three list buckets. -/
def bucketsList (c : ColorClassification) : List String :=
  c.primary ++ c.accents ++ c.neutrals

/-- Invariant of `classify_colors`: the three list buckets hold pairwise
distinct values, all of which are in the `classified_colors` set. -/
def ColorInv (st : ColorState) : Prop :=
  (bucketsList st.classification).Nodup ∧
  ∀ v ∈ bucketsList st.classification, v ∈ st.classified

theorem nodup_ins3 {p a n : List String} {v : String}
    (h : (p ++ a ++ n).Nodup) (hv : v ∉ p ++ a ++ n) :
    ((p ++ [v]) ++ a ++ n).Nodup ∧ (p ++ (a ++ [v]) ++ n).Nodup ∧
      (p ++ a ++ (n ++ [v])).Nodup := by
  simp only [List.nodup_append, List.nodup_cons, List.nodup_nil, List.disjoint_left,
    List.mem_append, List.mem_singleton, List.not_mem_nil, not_or, and_true,
    true_and, List.mem_cons] at h hv ⊢
  obtain ⟨⟨hp, ha, hpa⟩, hn, hpan⟩ := h
  obtain ⟨⟨hvp, hva⟩, hvn⟩ := hv
  aesop

theorem mem_addClassified_self (v : String) (cs : List String) :
    v ∈ addClassified v cs := by
  unfold addClassified
  split
  · assumption
  · exact List.mem_cons_self v cs

theorem colorInv_record (v : String) (r : ColorRecord) {st : ColorState}
    (h : ColorInv st) : ColorInv (recordIfAbsentC v r st) := by
  unfold ColorInv at h ⊢
  rw [recordIfAbsentC_classification, recordIfAbsentC_classified]
  exact h

theorem colorInv_appendPrimary {st : ColorState} {v : String} (h : ColorInv st)
    (hv : v ∉ st.classified) :
    ColorInv { st with
      classification := { st.classification with
        primary := st.classification.primary ++ [v] },
      classified := addClassified v st.classified } := by
  obtain ⟨hnd, hsub⟩ := h
  have hvb : v ∉ bucketsList st.classification := fun hm => hv (hsub v hm)
  refine ⟨(nodup_ins3 hnd hvb).1, ?_⟩
  intro w hw
  simp only [bucketsList, List.mem_append, List.mem_singleton] at hw
  rcases hw with ((hw | rfl) | hw) | hw
  · exact mem_addClassified_of_mem (hsub w (by simp [bucketsList, hw]))
  · exact mem_addClassified_self w st.classified
  · exact mem_addClassified_of_mem (hsub w (by simp [bucketsList, hw]))
  · exact mem_addClassified_of_mem (hsub w (by simp [bucketsList, hw]))

theorem colorInv_appendAccents {st : ColorState} {v : String} (h : ColorInv st)
    (hv : v ∉ st.classified) :
    ColorInv { st with
      classification := { st.classification with
        accents := st.classification.accents ++ [v] },
      classified := addClassified v st.classified } := by
  obtain ⟨hnd, hsub⟩ := h
  have hvb : v ∉ bucketsList st.classification := fun hm => hv (hsub v hm)
  refine ⟨(nodup_ins3 hnd hvb).2.1, ?_⟩
  intro w hw
  simp only [bucketsList, List.mem_append, List.mem_singleton] at hw
  rcases hw with ((hw | (hw | rfl)) | hw)
  · exact mem_addClassified_of_mem (hsub w (by simp [bucketsList, hw]))
  · exact mem_addClassified_of_mem (hsub w (by simp [bucketsList, hw]))
  · exact mem_addClassified_self w st.classified
  · exact mem_addClassified_of_mem (hsub w (by simp [bucketsList, hw]))

theorem colorInv_appendNeutrals {st : ColorState} {v : String} (h : ColorInv st)
    (hv : v ∉ st.classified) :
    ColorInv { st with
      classification := { st.classification with
        neutrals := st.classification.neutrals ++ [v] },
      classified := addClassified v st.classified } := by
  obtain ⟨hnd, hsub⟩ := h
  have hvb : v ∉ bucketsList st.classification := fun hm => hv (hsub v hm)
  refine ⟨(nodup_ins3 hnd hvb).2.2, ?_⟩
  intro w hw
  simp only [bucketsList, List.mem_append, List.mem_singleton] at hw
  rcases hw with ((hw | hw) | (hw | rfl))
  · exact mem_addClassified_of_mem (hsub w (by simp [bucketsList, hw]))
  · exact mem_addClassified_of_mem (hsub w (by simp [bucketsList, hw]))
  · exact mem_addClassified_of_mem (hsub w (by simp [bucketsList, hw]))
  · exact mem_addClassified_self w st.classified

theorem colorInv_setUtility {st : ColorState} (u : UtilitySlots) (v : String)
    (h : ColorInv st) :
    ColorInv { st with
      classification := { st.classification with utility := u },
      classified := addClassified v st.classified } := by
  obtain ⟨hnd, hsub⟩ := h
  exact ⟨hnd, fun w hw => mem_addClassified_of_mem (hsub w hw)⟩

theorem pass1Step_inv (nv : String × String) {st : ColorState} (h : ColorInv st) :
    ColorInv (pass1Step st nv) := by
  simp only [pass1Step]
  split
  · apply colorInv_record
    split
    · exact h
    · exact colorInv_appendPrimary h (by assumption)
  split
  · apply colorInv_record
    split
    · exact h
    · exact colorInv_appendAccents h (by assumption)
  split
  · apply colorInv_record
    split
    · exact h
    · exact colorInv_appendNeutrals h (by assumption)
  split
  · exact colorInv_record _ _ (colorInv_setUtility _ _ h)
  split
  · exact colorInv_record _ _ (colorInv_setUtility _ _ h)
  split
  · exact colorInv_record _ _ (colorInv_setUtility _ _ h)
  split
  · exact colorInv_record _ _ (colorInv_setUtility _ _ h)
  split
  · split
    · apply colorInv_record
      split
      · exact h
      · exact colorInv_appendAccents h (by assumption)
    · exact h
  · exact h

theorem pass2Prop_inv (frequency : List (String × Nat)) (selector : String)
    (pv : String × String) {st : ColorState} (h : ColorInv st) :
    ColorInv (pass2Prop frequency selector st pv) := by
  simp only [pass2Prop]
  split
  · exact h
  split
  · apply colorInv_record
    split
    · exact h
    · exact colorInv_appendPrimary h (by assumption)
  split
  · apply colorInv_record
    split
    · exact h
    · exact colorInv_appendAccents h (by assumption)
  · exact h

theorem colorPasses_inv (palette : ColorPalette)
    (computed : List (String × List (String × String))) :
    ColorInv (colorPasses palette computed) := by
  unfold colorPasses colorPassesFrom
  apply foldl_inv
  · apply foldl_inv
    · exact ⟨List.nodup_nil, by simp [bucketsList, initColorState]⟩
    · intro b a _ hb
      exact pass1Step_inv a hb
  · intro b a _ hb
    unfold pass2Sel
    apply foldl_inv
    · exact hb
    · intro b' a' _ hb'
      exact pass2Prop_inv _ _ _ hb'

/-! ## Claim C1 -/

/-- **C1** (amended): for every input, no color value appears more than once
within or across the `primary`, `accents` and `neutrals` buckets of the
classification returned by `classify_colors`. (The four utility slots are
not covered: they are assigned unconditionally by the source and may repeat
a value that already sits in a bucket or in another slot.) -/
theorem classify_colors_list_buckets_nodup
    (palette : ColorPalette) (computed : List (String × List (String × String))) :
    ((classify_colors palette computed).color_classification.primary ++
     (classify_colors palette computed).color_classification.accents ++
     (classify_colors palette computed).color_classification.neutrals).Nodup := by
  obtain ⟨hnd, -⟩ := colorPasses_inv palette computed
  have hsl :
      ((colorPasses palette computed).classification.primary.take 2 ++
        (colorPasses palette computed).classification.accents.take 8 ++
        (colorPasses palette computed).classification.neutrals.take 5).Sublist
        (bucketsList (colorPasses palette computed).classification) :=
    ((List.take_sublist _ _).append (List.take_sublist _ _)).append
      (List.take_sublist _ _)
  exact List.Nodup.sublist hsl hnd

/-- **C1** counterexample: with CSS variables
`--primary-a: #111111, --success-b: #111111` the value `#111111` ends up in
the `primary` bucket *and* in the `utility.success` slot, so a color value
can appear in more than one of the buckets/slots, contrary to the claim. -/
theorem classify_colors_dedup_counterexample :
    "#111111" ∈ (classify_colors
        ⟨some [("--primary-a", "#111111"), ("--success-b", "#111111")], some []⟩
        []).color_classification.primary ∧
    (classify_colors
        ⟨some [("--primary-a", "#111111"), ("--success-b", "#111111")], some []⟩
        []).color_classification.utility.success = some "#111111" := by
  decide

/-! ## Claim C6: confidence records are never overwritten -/

theorem pass1Step_lookup_some {st : ColorState} {k : String} {s : ColorRecord}
    (nv : String × String) (h : alookup k st.confidence = some s) :
    alookup k (pass1Step st nv).confidence = some s := by
  simp only [pass1Step]
  repeat' split
  all_goals first
    | exact h
    | exact recordIfAbsentC_lookup_some _ _ h

theorem pass2Prop_lookup_some {st : ColorState} {k : String} {s : ColorRecord}
    (frequency : List (String × Nat)) (selector : String) (pv : String × String)
    (h : alookup k st.confidence = some s) :
    alookup k (pass2Prop frequency selector st pv).confidence = some s := by
  simp only [pass2Prop]
  repeat' split
  all_goals first
    | exact h
    | exact recordIfAbsentC_lookup_some _ _ h

theorem recordIfAbsentF_lookup_some {st : FontState} {k : String} {s : FontRecord}
    (v : String) (r : FontRecord) (h : alookup k st.confidence = some s) :
    alookup k (recordIfAbsentF v r st).confidence = some s := by
  unfold recordIfAbsentF
  split
  · exact h
  · exact alookup_append_some _ h

theorem fontStep_lookup_some {st : FontState} {k : String} {s : FontRecord}
    (entry : String × StyleRecord) (h : alookup k st.confidence = some s) :
    alookup k (fontStep st entry).confidence = some s := by
  simp only [fontStep]
  repeat' split
  all_goals first
    | exact h
    | exact recordIfAbsentF_lookup_some _ _ h

/-- The fields of a font confidence record that the enrichment loop must
not touch. -/
def fontRecCore (r : FontRecord) : String × Nat × List String :=
  (r.role, r.confidence, r.evidence)

theorem alookup_enrich_map (c : String) (u : FontRecord → FontRecord)
    (hu : ∀ r, fontRecCore (u r) = fontRecCore r) :
    ∀ (l : List (String × FontRecord)) (k : String),
      (alookup k (l.map (fun p => if p.1 = c then (p.1, u p.2) else p))).map fontRecCore
        = (alookup k l).map fontRecCore
  | [], _ => rfl
  | ⟨k1, r1⟩ :: ps, k => by
    by_cases hc : k1 = c
    · by_cases hk : k1 = k
      · simp only [List.map_cons, if_pos hc, alookup, if_pos hk]
        simp [hu]
      · simp only [List.map_cons, if_pos hc, alookup, if_neg hk]
        exact alookup_enrich_map c u hu ps k
    · by_cases hk : k1 = k
      · simp only [List.map_cons, if_neg hc, alookup, if_pos hk]
      · simp only [List.map_cons, if_neg hc, alookup, if_neg hk]
        exact alookup_enrich_map c u hu ps k

theorem enrichStep_core (st : FontState) (e : String × UsageInfo) (k : String) :
    (alookup k (enrichStep st e).confidence).map fontRecCore
      = (alookup k st.confidence).map fontRecCore := by
  exact alookup_enrich_map (cleanFont e.1)
    (fun r => { r with
      used_in_elements := some (e.2.used_in.getD []),
      sample_size := some e.2.sample_size })
    (fun _ => rfl) st.confidence k

/-- **C6**: a confidence record, once created, is never overwritten or
replaced by a later rule or pass. Formally: starting both classifiers from
any intermediate state that already holds a record for some key, running
all the remaining work (`colorPassesFrom` = both color passes;
`fontPassFrom` = font pass, truncation and hierarchy enrichment) leaves the
color record untouched, and leaves the role, confidence and evidence of the
font record untouched (enrichment only sets the two extra usage keys).
Since `classify_colors` and `classify_fonts` are these very pipelines run
from the empty state, the record created at a value's first classification
is the one returned. -/
theorem confidence_record_first_wins
    (st : ColorState) (palette : ColorPalette)
    (computed : List (String × List (String × String)))
    (k : String) (r : ColorRecord)
    (hc : alookup k st.confidence = some r)
    (stf : FontState) (t : Typography) (d : List (String × StyleRecord))
    (kf : String) (rf : FontRecord)
    (hf : alookup kf stf.confidence = some rf) :
    alookup k (colorPassesFrom st palette computed).confidence = some r ∧
    (alookup kf (fontPassFrom stf t d).confidence).map fontRecCore
      = some (fontRecCore rf) := by
  constructor
  · simp only [colorPassesFrom]
    apply foldl_inv (P := fun st' : ColorState => alookup k st'.confidence = some r)
    · apply foldl_inv (P := fun st' : ColorState => alookup k st'.confidence = some r) _ _ _ hc
      intro b a _ hb
      exact pass1Step_lookup_some a hb
    · intro b a _ hb
      unfold pass2Sel
      apply foldl_inv (P := fun st' : ColorState => alookup k st'.confidence = some r) _ _ _ hb
      intro b' a' _ hb'
      exact pass2Prop_lookup_some _ _ _ hb'
  · simp only [fontPassFrom]
    have h1 : alookup kf (d.foldl fontStep stf).confidence = some rf := by
      apply foldl_inv (P := fun st' : FontState => alookup kf st'.confidence = some rf) _ _ _ hf
      intro b a _ hb
      exact fontStep_lookup_some a hb
    apply foldl_inv
      (P := fun st' : FontState => (alookup kf st'.confidence).map fontRecCore = some (fontRecCore rf))
    · show (alookup kf (d.foldl fontStep stf).confidence).map fontRecCore
        = some (fontRecCore rf)
      rw [h1]
      rfl
    · intro b a _ hb
      rw [enrichStep_core]
      exact hb

/-! ## Claim C2: font slot dedup -/

theorem recordIfAbsentF_classification (v : String) (r : FontRecord) (st : FontState) :
    (recordIfAbsentF v r st).classification = st.classification := by
  unfold recordIfAbsentF; split <;> rfl

theorem recordIfAbsentF_classified (v : String) (r : FontRecord) (st : FontState) :
    (recordIfAbsentF v r st).classified = st.classified := by
  unfold recordIfAbsentF; split <;> rfl

/-- Pairwise distinctness of the filled font slots, plus: accent fonts are in
no single slot and are themselves distinct. -/
def SlotsDistinct (fc : FontClassification) : Prop :=
  (∀ f, fc.primary_heading = some f → fc.body_text ≠ some f ∧ fc.monospace_code ≠ some f) ∧
  (∀ f, fc.body_text = some f → fc.monospace_code ≠ some f) ∧
  (∀ f ∈ fc.accent_display,
     fc.primary_heading ≠ some f ∧ fc.body_text ≠ some f ∧ fc.monospace_code ≠ some f) ∧
  fc.accent_display.Nodup

/-- Invariant of the `classify_fonts` loop: every font name sitting in a slot
is in the `classified_fonts` set, and the slots are pairwise distinct. -/
def FontInv (st : FontState) : Prop :=
  (∀ f, st.classification.primary_heading = some f → f ∈ st.classified) ∧
  (∀ f, st.classification.body_text = some f → f ∈ st.classified) ∧
  (∀ f, st.classification.monospace_code = some f → f ∈ st.classified) ∧
  (∀ f ∈ st.classification.accent_display, f ∈ st.classified) ∧
  SlotsDistinct st.classification

theorem fontInv_record (v : String) (r : FontRecord) {st : FontState}
    (h : FontInv st) : FontInv (recordIfAbsentF v r st) := by
  unfold FontInv at h ⊢
  rw [recordIfAbsentF_classification, recordIfAbsentF_classified]
  exact h

theorem fontInv_setHeading {st : FontState} {f : String} (h : FontInv st)
    (hf : f ∉ st.classified) :
    FontInv { st with
      classification := { st.classification with primary_heading := some f },
      classified := addClassified f st.classified } := by
  obtain ⟨h1, h2, h3, h4, d1, d2, d3, d4⟩ := h
  refine ⟨?_, ?_, ?_, ?_, ?_, ?_, ?_, ?_⟩
  · intro g hg
    cases hg
    exact mem_addClassified_self f st.classified
  · intro g hg
    exact mem_addClassified_of_mem (h2 g hg)
  · intro g hg
    exact mem_addClassified_of_mem (h3 g hg)
  · intro g hg
    exact mem_addClassified_of_mem (h4 g hg)
  · intro g hg
    cases hg
    constructor
    · intro e
      exact hf (h2 f e)
    · intro e
      exact hf (h3 f e)
  · exact d2
  · intro g hg
    refine ⟨?_, (d3 g hg).2.1, (d3 g hg).2.2⟩
    intro e
    cases e
    exact hf (h4 f hg)
  · exact d4

theorem fontInv_setBody {st : FontState} {f : String} (h : FontInv st)
    (hf : f ∉ st.classified) :
    FontInv { st with
      classification := { st.classification with body_text := some f },
      classified := addClassified f st.classified } := by
  obtain ⟨h1, h2, h3, h4, d1, d2, d3, d4⟩ := h
  refine ⟨?_, ?_, ?_, ?_, ?_, ?_, ?_, ?_⟩
  · intro g hg
    exact mem_addClassified_of_mem (h1 g hg)
  · intro g hg
    cases hg
    exact mem_addClassified_self f st.classified
  · intro g hg
    exact mem_addClassified_of_mem (h3 g hg)
  · intro g hg
    exact mem_addClassified_of_mem (h4 g hg)
  · intro g hg
    constructor
    · intro e
      cases e
      exact hf (h1 f hg)
    · exact (d1 g hg).2
  · intro g hg
    cases hg
    intro e
    exact hf (h3 f e)
  · intro g hg
    refine ⟨(d3 g hg).1, ?_, (d3 g hg).2.2⟩
    intro e
    cases e
    exact hf (h4 f hg)
  · exact d4

theorem fontInv_setMono {st : FontState} {f : String} (h : FontInv st)
    (hf : f ∉ st.classified) :
    FontInv { st with
      classification := { st.classification with monospace_code := some f },
      classified := addClassified f st.classified } := by
  obtain ⟨h1, h2, h3, h4, d1, d2, d3, d4⟩ := h
  refine ⟨?_, ?_, ?_, ?_, ?_, ?_, ?_, ?_⟩
  · intro g hg
    exact mem_addClassified_of_mem (h1 g hg)
  · intro g hg
    exact mem_addClassified_of_mem (h2 g hg)
  · intro g hg
    cases hg
    exact mem_addClassified_self f st.classified
  · intro g hg
    exact mem_addClassified_of_mem (h4 g hg)
  · intro g hg
    constructor
    · exact (d1 g hg).1
    · intro e
      cases e
      exact hf (h1 f hg)
  · intro g hg
    intro e
    cases e
    exact hf (h2 f hg)
  · intro g hg
    refine ⟨(d3 g hg).1, (d3 g hg).2.1, ?_⟩
    intro e
    cases e
    exact hf (h4 f hg)
  · exact d4

theorem fontInv_appendAccent {st : FontState} {f : String} (h : FontInv st)
    (hf : f ∉ st.classified) :
    FontInv { st with
      classification := { st.classification with
        accent_display := st.classification.accent_display ++ [f] },
      classified := addClassified f st.classified } := by
  obtain ⟨h1, h2, h3, h4, d1, d2, d3, d4⟩ := h
  have hfa : f ∉ st.classification.accent_display := fun hm => hf (h4 f hm)
  refine ⟨?_, ?_, ?_, ?_, ?_, ?_, ?_, ?_⟩
  · intro g hg
    exact mem_addClassified_of_mem (h1 g hg)
  · intro g hg
    exact mem_addClassified_of_mem (h2 g hg)
  · intro g hg
    exact mem_addClassified_of_mem (h3 g hg)
  · intro g hg
    rcases List.mem_append.mp hg with hg | hg
    · exact mem_addClassified_of_mem (h4 g hg)
    · cases List.mem_singleton.mp hg
      exact mem_addClassified_self f st.classified
  · exact d1
  · exact d2
  · intro g hg
    rcases List.mem_append.mp hg with hg | hg
    · exact d3 g hg
    · cases List.mem_singleton.mp hg
      refine ⟨fun e => hf (h1 f e), fun e => hf (h2 f e), fun e => hf (h3 f e)⟩
  · simp only [List.nodup_append, List.nodup_cons, List.nodup_nil, List.disjoint_left,
      List.mem_singleton]
    exact ⟨d4, by simp, fun g hg e => hfa (e ▸ hg)⟩

theorem fontStep_inv (entry : String × StyleRecord) {st : FontState}
    (hclean : entry.2.fontFamily.getD "" = cleanFont (entry.2.fontFamily.getD ""))
    (h : FontInv st) : FontInv (fontStep st entry) := by
  simp only [fontStep]
  split
  · exact h
  · rename_i hskip
    have hnot : entry.2.fontFamily.getD "" ∉ st.classified :=
      fun hm => hskip (Or.inr hm)
    rw [← hclean]
    split
    · exact fontInv_record _ _ (fontInv_setHeading h hnot)
    split
    · exact fontInv_record _ _ (fontInv_setBody h hnot)
    split
    · exact fontInv_record _ _ (fontInv_setMono h hnot)
    split
    · split
      · exact h
      · exact fontInv_record _ _ (fontInv_appendAccent h hnot)
    · exact h

theorem slotsDistinct_take (fc : FontClassification) (h : SlotsDistinct fc) :
    SlotsDistinct { fc with accent_display := fc.accent_display.take 3 } := by
  obtain ⟨d1, d2, d3, d4⟩ := h
  refine ⟨d1, d2, ?_, ?_⟩
  · intro g hg
    exact d3 g (List.take_subset _ _ hg)
  · exact List.Nodup.sublist (List.take_sublist _ _) d4

theorem enrich_foldl_classification :
    ∀ (l : List (String × UsageInfo)) (st : FontState),
      (l.foldl enrichStep st).classification = st.classification
  | [], _ => rfl
  | e :: es, st => by
    rw [List.foldl_cons, enrich_foldl_classification es (enrichStep st e)]
    rfl

/-- Boolean form of "two filled optional slots differ". -/
def neOptB (a b : Option String) : Bool :=
  match a, b with
  | some x, some y => decide (x ≠ y)
  | _, _ => true

/-- Boolean check: no cleaned font name occupies more than one of the slots
`primary_heading`, `body_text`, `monospace_code`, and `accent_display` holds
pairwise-distinct names used in none of those slots. -/
def fontSlotsDedupB (fc : FontClassification) : Bool :=
  neOptB fc.primary_heading fc.body_text &&
  neOptB fc.primary_heading fc.monospace_code &&
  neOptB fc.body_text fc.monospace_code &&
  fc.accent_display.all (fun f =>
    decide (fc.primary_heading ≠ some f) && decide (fc.body_text ≠ some f) &&
    decide (fc.monospace_code ≠ some f)) &&
  decide fc.accent_display.Nodup

theorem neOptB_of {a b : Option String} (h : ∀ f, a = some f → b ≠ some f) :
    neOptB a b = true := by
  cases a with
  | none => rfl
  | some x =>
    cases b with
    | none => rfl
    | some y =>
      simp only [neOptB, decide_eq_true_iff]
      intro e
      exact h x rfl (by rw [e])

theorem fontSlotsDedupB_of {fc : FontClassification} (h : SlotsDistinct fc) :
    fontSlotsDedupB fc = true := by
  obtain ⟨d1, d2, d3, d4⟩ := h
  unfold fontSlotsDedupB
  simp only [Bool.and_eq_true, List.all_eq_true, decide_eq_true_iff]
  refine ⟨⟨⟨⟨?_, ?_⟩, ?_⟩, ?_⟩, d4⟩
  · exact neOptB_of (fun f e => (d1 f e).1)
  · exact neOptB_of (fun f e => (d1 f e).2)
  · exact neOptB_of d2
  · intro f hf
    exact ⟨⟨(d3 f hf).1, (d3 f hf).2.1⟩, (d3 f hf).2.2⟩

theorem fontInv_init : FontInv initFontState := by
  unfold FontInv SlotsDistinct initFontState
  simp

/-- **C2** (amended): the loop's duplicate check compares the *raw*
font-family string against the set of *cleaned* names, so the claimed slot
dedup only holds when every processed declaration equals its cleaned form
(no fallback list, quotes or surrounding whitespace). Under that hypothesis
a cleaned font name occupies at most one of `primary_heading`, `body_text`
and `monospace_code`, and `accent_display` holds pairwise-distinct names
used in none of those slots. -/
theorem classify_fonts_slots_dedup (t : Typography) (d : List (String × StyleRecord))
    (h : (d.all (fun p => p.2.fontFamily.getD "" == cleanFont (p.2.fontFamily.getD ""))) = true) :
    fontSlotsDedupB (classify_fonts t d).font_classification = true := by
  have hpt : ∀ p ∈ d, p.2.fontFamily.getD "" = cleanFont (p.2.fontFamily.getD "") := by
    intro p hp
    exact eq_of_beq (List.all_eq_true.mp h p hp)
  have hinv : FontInv (d.foldl fontStep initFontState) := by
    apply foldl_inv (P := FontInv) _ _ _ fontInv_init
    intro b a ha hb
    exact fontStep_inv a (hpt a ha) hb
  have hcls : (classify_fonts t d).font_classification =
      { (d.foldl fontStep initFontState).classification with
        accent_display :=
          (d.foldl fontStep initFontState).classification.accent_display.take 3 } := by
    simp only [classify_fonts, fontPassFrom]
    rw [enrich_foldl_classification]
  rw [hcls]
  exact fontSlotsDedupB_of (slotsDistinct_take _ hinv.2.2.2.2)

/-- **C2** counterexample: with `h1 : "Georgia, serif"` and
`p : "Georgia, sans-serif"` the cleaned name `Georgia` fills *both*
`primary_heading` and `body_text`: the skip test compares the raw
declaration (not yet seen) against the cleaned names, so the second
declaration is processed again. -/
theorem classify_fonts_dedup_counterexample :
    (classify_fonts ⟨none⟩
        [("h1", ⟨some "Georgia, serif"⟩), ("p", ⟨some "Georgia, sans-serif"⟩)]
      ).font_classification.primary_heading = some "Georgia" ∧
    (classify_fonts ⟨none⟩
        [("h1", ⟨some "Georgia, serif"⟩), ("p", ⟨some "Georgia, sans-serif"⟩)]
      ).font_classification.body_text = some "Georgia" := by
  decide

/-- Witness for `classify_fonts_slots_dedup` at a concrete input satisfying
its hypothesis. -/
theorem classify_fonts_slots_dedup_witness :
    (([("h1", (⟨some "Georgia"⟩ : StyleRecord)), ("p", ⟨some "Arial"⟩)].all
        (fun p => p.2.fontFamily.getD "" == cleanFont (p.2.fontFamily.getD ""))) = true) ∧
    fontSlotsDedupB (classify_fonts ⟨none⟩
        [("h1", ⟨some "Georgia"⟩), ("p", ⟨some "Arial"⟩)]).font_classification = true :=
  ⟨by decide, classify_fonts_slots_dedup ⟨none⟩ _ (by decide)⟩

/-! ## Claim C3: the monospace slot -/

theorem recordIfAbsentC_lookup_new {st : ColorState} {k : String} (r : ColorRecord)
    (h : alookup k st.confidence = none) :
    alookup k (recordIfAbsentC k r st).confidence = some r := by
  unfold recordIfAbsentC
  split
  · rename_i hs
    rw [h] at hs
    simp at hs
  · rw [alookup_append_none _ h]
    simp [alookup]

theorem recordIfAbsentF_lookup_new {st : FontState} {k : String} (r : FontRecord)
    (h : alookup k st.confidence = none) :
    alookup k (recordIfAbsentF k r st).confidence = some r := by
  unfold recordIfAbsentF
  split
  · rename_i hs
    rw [h] at hs
    simp at hs
  · rw [alookup_append_none _ h]
    simp [alookup]

/-- **C3** counterexample: two selectors whose font-family strings both
contain "mono". After the first alone the slot holds `Fira Mono`; after
both it holds `JetBrains Mono` — the *later* matching selector replaced the
already-set slot, so first hit does not win. -/
theorem monospace_first_hit_counterexample :
    (classify_fonts ⟨none⟩ [("em", ⟨some "Fira Mono"⟩)]
      ).font_classification.monospace_code = some "Fira Mono" ∧
    (classify_fonts ⟨none⟩
        [("em", ⟨some "Fira Mono"⟩), ("div", ⟨some "JetBrains Mono"⟩)]
      ).font_classification.monospace_code = some "JetBrains Mono" := by
  decide

/-- **C3** (amended): the `monospace_code` assignment carries no "only if
unset" guard, so *every* processed selector that reaches the mono/code rule
(not skipped, not captured by the heading/body rules) overwrites the slot
with its cleaned font name — the last hit wins, not the first. The cleaned
name still receives a confidence record with role `monospace` and
confidence 0.90 when it had none. -/
theorem fontStep_mono_overwrites (st : FontState) (selector : String) (sty : StyleRecord)
    (h1 : sty.fontFamily.getD "" ≠ "")
    (h2 : sty.fontFamily.getD "" ∉ st.classified)
    (h3 : ¬(selector ∈ ["h1", "h2", "h3"] ∧ pyFalsyOpt st.classification.primary_heading = true))
    (h4 : ¬(selector ∈ ["body", "p"] ∧ pyFalsyOpt st.classification.body_text = true))
    (h5 : substrB "mono" (lowerStr (sty.fontFamily.getD "")) = true ∨
          substrB "code" (lowerStr (sty.fontFamily.getD "")) = true)
    (h6 : alookup (cleanFont (sty.fontFamily.getD "")) st.confidence = none) :
    (fontStep st (selector, sty)).classification.monospace_code
      = some (cleanFont (sty.fontFamily.getD "")) ∧
    alookup (cleanFont (sty.fontFamily.getD "")) (fontStep st (selector, sty)).confidence
      = some ⟨"monospace", 90,
              ["Used in: " ++ selector, "Monospace font family detected"],
              none, none⟩ := by
  have hno : ¬(sty.fontFamily.getD "" = "" ∨ sty.fontFamily.getD "" ∈ st.classified) := by
    rintro (e | e)
    · exact h1 e
    · exact h2 e
  simp only [fontStep]
  rw [if_neg hno, if_neg h3, if_neg h4, if_pos h5]
  constructor
  · rw [recordIfAbsentF_classification]
  · exact recordIfAbsentF_lookup_new _ h6

/-- Witness for `fontStep_mono_overwrites`: a state whose monospace slot is
already set to `OldMono` is overwritten by the later matching selector. -/
theorem fontStep_mono_overwrites_witness :
    (fontStep ⟨⟨none, none, [], some "OldMono"⟩, [], []⟩ ("em", ⟨some "Fira Mono"⟩)
      ).classification.monospace_code = some "Fira Mono" ∧
    alookup "Fira Mono"
        (fontStep ⟨⟨none, none, [], some "OldMono"⟩, [], []⟩
          ("em", ⟨some "Fira Mono"⟩)).confidence
      = some ⟨"monospace", 90, ["Used in: em", "Monospace font family detected"],
              none, none⟩ := by
  exact fontStep_mono_overwrites ⟨⟨none, none, [], some "OldMono"⟩, [], []⟩ "em"
    ⟨some "Fira Mono"⟩ (by decide) (by decide) (by decide) (by decide)
    (Or.inl (by decide)) (by decide)

/-! ## Claim C4: caps and truncation -/

/-- **C4**: for every input the returned buckets respect the caps
(`primary ≤ 2`, `accents ≤ 8`, `neutrals ≤ 5`, `accent_display ≤ 3`), and
each returned bucket is the prefix (`take`) of the corresponding
pre-truncation bucket: truncation keeps the earliest-discovered entries in
order and drops the excess. -/
theorem classification_caps (palette : ColorPalette)
    (computed : List (String × List (String × String)))
    (t : Typography) (d : List (String × StyleRecord)) :
    (classify_colors palette computed).color_classification.primary.length ≤ 2 ∧
    (classify_colors palette computed).color_classification.accents.length ≤ 8 ∧
    (classify_colors palette computed).color_classification.neutrals.length ≤ 5 ∧
    (classify_fonts t d).font_classification.accent_display.length ≤ 3 ∧
    (classify_colors palette computed).color_classification.primary
      = (colorPasses palette computed).classification.primary.take 2 ∧
    (classify_colors palette computed).color_classification.accents
      = (colorPasses palette computed).classification.accents.take 8 ∧
    (classify_colors palette computed).color_classification.neutrals
      = (colorPasses palette computed).classification.neutrals.take 5 ∧
    (classify_fonts t d).font_classification.accent_display
      = (d.foldl fontStep initFontState).classification.accent_display.take 3 := by
  have hfc : (classify_fonts t d).font_classification.accent_display
      = (d.foldl fontStep initFontState).classification.accent_display.take 3 := by
    simp only [classify_fonts, fontPassFrom]
    rw [enrich_foldl_classification]
  refine ⟨?_, ?_, ?_, ?_, rfl, rfl, rfl, hfc⟩
  · show ((colorPasses palette computed).classification.primary.take 2).length ≤ 2
    rw [List.length_take]
    exact min_le_left _ _
  · show ((colorPasses palette computed).classification.accents.take 8).length ≤ 8
    rw [List.length_take]
    exact min_le_left _ _
  · show ((colorPasses palette computed).classification.neutrals.take 5).length ≤ 5
    rw [List.length_take]
    exact min_le_left _ _
  · rw [hfc, List.length_take]
    exact min_le_left _ _

/-! ## Claim C5: pass 1 priority order -/

theorem not_true_of_eq_false {b : Bool} (h : b = false) : ¬(b = true) := by
  rw [h]
  exact Bool.false_ne_true

/-- **C5**: pass 1 tests a variable's lower-cased name against the pattern
groups in the fixed priority order primary > accent > neutral >
utility success > utility error > utility warning > utility info >
named-color, and the variable is handled by the *first* matching group
alone, with that group's fixed role and confidence, every other bucket and
utility slot left untouched; a name matching no group (and a named-color
name with an intensity modifier or numeric suffix matches no group, cf.
C8) leaves the state unchanged. In particular a name matching both the
primary group and any later group is classified `primary` with confidence
0.95, never `accent`. -/
theorem pass1_priority_ladder (st : ColorState) (name v : String) :
    (matchesAny primary_patterns (lowerStr name) = true →
      (pass1Step st (name, v)).classification.accents = st.classification.accents ∧
      (pass1Step st (name, v)).classification.neutrals = st.classification.neutrals ∧
      (pass1Step st (name, v)).classification.utility = st.classification.utility ∧
      (v ∉ st.classified →
        (pass1Step st (name, v)).classification.primary
          = st.classification.primary ++ [v]) ∧
      (alookup v st.confidence = none →
        alookup v (pass1Step st (name, v)).confidence
          = some ⟨"primary", 95, ["CSS variable name: " ++ name]⟩)) ∧
    (matchesAny primary_patterns (lowerStr name) = false →
      matchesAny accent_patterns (lowerStr name) = true →
      (pass1Step st (name, v)).classification.primary = st.classification.primary ∧
      (pass1Step st (name, v)).classification.neutrals = st.classification.neutrals ∧
      (pass1Step st (name, v)).classification.utility = st.classification.utility ∧
      (v ∉ st.classified →
        (pass1Step st (name, v)).classification.accents
          = st.classification.accents ++ [v]) ∧
      (alookup v st.confidence = none →
        alookup v (pass1Step st (name, v)).confidence
          = some ⟨"accent", 90, ["CSS variable name: " ++ name]⟩)) ∧
    (matchesAny primary_patterns (lowerStr name) = false →
      matchesAny accent_patterns (lowerStr name) = false →
      matchesAny neutral_patterns (lowerStr name) = true →
      (pass1Step st (name, v)).classification.primary = st.classification.primary ∧
      (pass1Step st (name, v)).classification.accents = st.classification.accents ∧
      (pass1Step st (name, v)).classification.utility = st.classification.utility ∧
      (v ∉ st.classified →
        (pass1Step st (name, v)).classification.neutrals
          = st.classification.neutrals ++ [v]) ∧
      (alookup v st.confidence = none →
        alookup v (pass1Step st (name, v)).confidence
          = some ⟨"neutral", 95, ["CSS variable name: " ++ name]⟩)) ∧
    (matchesAny primary_patterns (lowerStr name) = false →
      matchesAny accent_patterns (lowerStr name) = false →
      matchesAny neutral_patterns (lowerStr name) = false →
      matchesAny success_patterns (lowerStr name) = true →
      (pass1Step st (name, v)).classification.primary = st.classification.primary ∧
      (pass1Step st (name, v)).classification.accents = st.classification.accents ∧
      (pass1Step st (name, v)).classification.neutrals = st.classification.neutrals ∧
      (pass1Step st (name, v)).classification.utility
        = { st.classification.utility with success := some v } ∧
      (alookup v st.confidence = none →
        alookup v (pass1Step st (name, v)).confidence
          = some ⟨"utility_success", 90, ["CSS variable name: " ++ name]⟩)) ∧
    (matchesAny primary_patterns (lowerStr name) = false →
      matchesAny accent_patterns (lowerStr name) = false →
      matchesAny neutral_patterns (lowerStr name) = false →
      matchesAny success_patterns (lowerStr name) = false →
      matchesAny error_patterns (lowerStr name) = true →
      (pass1Step st (name, v)).classification.primary = st.classification.primary ∧
      (pass1Step st (name, v)).classification.accents = st.classification.accents ∧
      (pass1Step st (name, v)).classification.neutrals = st.classification.neutrals ∧
      (pass1Step st (name, v)).classification.utility
        = { st.classification.utility with error := some v } ∧
      (alookup v st.confidence = none →
        alookup v (pass1Step st (name, v)).confidence
          = some ⟨"utility_error", 90, ["CSS variable name: " ++ name]⟩)) ∧
    (matchesAny primary_patterns (lowerStr name) = false →
      matchesAny accent_patterns (lowerStr name) = false →
      matchesAny neutral_patterns (lowerStr name) = false →
      matchesAny success_patterns (lowerStr name) = false →
      matchesAny error_patterns (lowerStr name) = false →
      matchesAny warning_patterns (lowerStr name) = true →
      (pass1Step st (name, v)).classification.primary = st.classification.primary ∧
      (pass1Step st (name, v)).classification.accents = st.classification.accents ∧
      (pass1Step st (name, v)).classification.neutrals = st.classification.neutrals ∧
      (pass1Step st (name, v)).classification.utility
        = { st.classification.utility with warning := some v } ∧
      (alookup v st.confidence = none →
        alookup v (pass1Step st (name, v)).confidence
          = some ⟨"utility_warning", 90, ["CSS variable name: " ++ name]⟩)) ∧
    (matchesAny primary_patterns (lowerStr name) = false →
      matchesAny accent_patterns (lowerStr name) = false →
      matchesAny neutral_patterns (lowerStr name) = false →
      matchesAny success_patterns (lowerStr name) = false →
      matchesAny error_patterns (lowerStr name) = false →
      matchesAny warning_patterns (lowerStr name) = false →
      matchesAny info_patterns (lowerStr name) = true →
      (pass1Step st (name, v)).classification.primary = st.classification.primary ∧
      (pass1Step st (name, v)).classification.accents = st.classification.accents ∧
      (pass1Step st (name, v)).classification.neutrals = st.classification.neutrals ∧
      (pass1Step st (name, v)).classification.utility
        = { st.classification.utility with info := some v } ∧
      (alookup v st.confidence = none →
        alookup v (pass1Step st (name, v)).confidence
          = some ⟨"utility_info", 85, ["CSS variable name: " ++ name]⟩)) ∧
    (matchesAny primary_patterns (lowerStr name) = false →
      matchesAny accent_patterns (lowerStr name) = false →
      matchesAny neutral_patterns (lowerStr name) = false →
      matchesAny success_patterns (lowerStr name) = false →
      matchesAny error_patterns (lowerStr name) = false →
      matchesAny warning_patterns (lowerStr name) = false →
      matchesAny info_patterns (lowerStr name) = false →
      matchesAny color_name_patterns (lowerStr name) = true →
      (!hasModifier (lowerStr name) && !endsDashNum (lowerStr name)) = true →
      (pass1Step st (name, v)).classification.primary = st.classification.primary ∧
      (pass1Step st (name, v)).classification.neutrals = st.classification.neutrals ∧
      (pass1Step st (name, v)).classification.utility = st.classification.utility ∧
      (v ∉ st.classified →
        (pass1Step st (name, v)).classification.accents
          = st.classification.accents ++ [v]) ∧
      (alookup v st.confidence = none →
        alookup v (pass1Step st (name, v)).confidence
          = some ⟨"accent", 85,
              ["CSS variable name: " ++ name, "Named color variable"]⟩)) ∧
    (matchesAny primary_patterns (lowerStr name) = false →
      matchesAny accent_patterns (lowerStr name) = false →
      matchesAny neutral_patterns (lowerStr name) = false →
      matchesAny success_patterns (lowerStr name) = false →
      matchesAny error_patterns (lowerStr name) = false →
      matchesAny warning_patterns (lowerStr name) = false →
      matchesAny info_patterns (lowerStr name) = false →
      matchesAny color_name_patterns (lowerStr name) = false →
      pass1Step st (name, v) = st) := by
  refine ⟨?_, ?_, ?_, ?_, ?_, ?_, ?_, ?_, ?_⟩
  · intro m1
    simp only [pass1Step]
    rw [if_pos m1]
    refine ⟨?_, ?_, ?_, ?_, ?_⟩
    · rw [recordIfAbsentC_classification]
      split <;> rfl
    · rw [recordIfAbsentC_classification]
      split <;> rfl
    · rw [recordIfAbsentC_classification]
      split <;> rfl
    · intro hv
      rw [recordIfAbsentC_classification, if_neg hv]
    · intro hn
      apply recordIfAbsentC_lookup_new
      split <;> exact hn
  · intro m1 m2
    simp only [pass1Step]
    rw [if_neg (not_true_of_eq_false m1), if_pos m2]
    refine ⟨?_, ?_, ?_, ?_, ?_⟩
    · rw [recordIfAbsentC_classification]
      split <;> rfl
    · rw [recordIfAbsentC_classification]
      split <;> rfl
    · rw [recordIfAbsentC_classification]
      split <;> rfl
    · intro hv
      rw [recordIfAbsentC_classification, if_neg hv]
    · intro hn
      apply recordIfAbsentC_lookup_new
      split <;> exact hn
  · intro m1 m2 m3
    simp only [pass1Step]
    rw [if_neg (not_true_of_eq_false m1), if_neg (not_true_of_eq_false m2), if_pos m3]
    refine ⟨?_, ?_, ?_, ?_, ?_⟩
    · rw [recordIfAbsentC_classification]
      split <;> rfl
    · rw [recordIfAbsentC_classification]
      split <;> rfl
    · rw [recordIfAbsentC_classification]
      split <;> rfl
    · intro hv
      rw [recordIfAbsentC_classification, if_neg hv]
    · intro hn
      apply recordIfAbsentC_lookup_new
      split <;> exact hn
  · intro m1 m2 m3 m4
    simp only [pass1Step]
    rw [if_neg (not_true_of_eq_false m1), if_neg (not_true_of_eq_false m2),
      if_neg (not_true_of_eq_false m3), if_pos m4]
    refine ⟨?_, ?_, ?_, ?_, ?_⟩
    · rw [recordIfAbsentC_classification]
    · rw [recordIfAbsentC_classification]
    · rw [recordIfAbsentC_classification]
    · rw [recordIfAbsentC_classification]
    · intro hn
      exact recordIfAbsentC_lookup_new _ hn
  · intro m1 m2 m3 m4 m5
    simp only [pass1Step]
    rw [if_neg (not_true_of_eq_false m1), if_neg (not_true_of_eq_false m2),
      if_neg (not_true_of_eq_false m3), if_neg (not_true_of_eq_false m4), if_pos m5]
    refine ⟨?_, ?_, ?_, ?_, ?_⟩
    · rw [recordIfAbsentC_classification]
    · rw [recordIfAbsentC_classification]
    · rw [recordIfAbsentC_classification]
    · rw [recordIfAbsentC_classification]
    · intro hn
      exact recordIfAbsentC_lookup_new _ hn
  · intro m1 m2 m3 m4 m5 m6
    simp only [pass1Step]
    rw [if_neg (not_true_of_eq_false m1), if_neg (not_true_of_eq_false m2),
      if_neg (not_true_of_eq_false m3), if_neg (not_true_of_eq_false m4),
      if_neg (not_true_of_eq_false m5), if_pos m6]
    refine ⟨?_, ?_, ?_, ?_, ?_⟩
    · rw [recordIfAbsentC_classification]
    · rw [recordIfAbsentC_classification]
    · rw [recordIfAbsentC_classification]
    · rw [recordIfAbsentC_classification]
    · intro hn
      exact recordIfAbsentC_lookup_new _ hn
  · intro m1 m2 m3 m4 m5 m6 m7
    simp only [pass1Step]
    rw [if_neg (not_true_of_eq_false m1), if_neg (not_true_of_eq_false m2),
      if_neg (not_true_of_eq_false m3), if_neg (not_true_of_eq_false m4),
      if_neg (not_true_of_eq_false m5), if_neg (not_true_of_eq_false m6), if_pos m7]
    refine ⟨?_, ?_, ?_, ?_, ?_⟩
    · rw [recordIfAbsentC_classification]
    · rw [recordIfAbsentC_classification]
    · rw [recordIfAbsentC_classification]
    · rw [recordIfAbsentC_classification]
    · intro hn
      exact recordIfAbsentC_lookup_new _ hn
  · intro m1 m2 m3 m4 m5 m6 m7 m8 m9
    simp only [pass1Step]
    rw [if_neg (not_true_of_eq_false m1), if_neg (not_true_of_eq_false m2),
      if_neg (not_true_of_eq_false m3), if_neg (not_true_of_eq_false m4),
      if_neg (not_true_of_eq_false m5), if_neg (not_true_of_eq_false m6),
      if_neg (not_true_of_eq_false m7), if_pos m8, if_pos m9]
    refine ⟨?_, ?_, ?_, ?_, ?_⟩
    · rw [recordIfAbsentC_classification]
      split <;> rfl
    · rw [recordIfAbsentC_classification]
      split <;> rfl
    · rw [recordIfAbsentC_classification]
      split <;> rfl
    · intro hv
      rw [recordIfAbsentC_classification, if_neg hv]
    · intro hn
      apply recordIfAbsentC_lookup_new
      split <;> exact hn
  · intro m1 m2 m3 m4 m5 m6 m7 m8
    simp only [pass1Step]
    rw [if_neg (not_true_of_eq_false m1), if_neg (not_true_of_eq_false m2),
      if_neg (not_true_of_eq_false m3), if_neg (not_true_of_eq_false m4),
      if_neg (not_true_of_eq_false m5), if_neg (not_true_of_eq_false m6),
      if_neg (not_true_of_eq_false m7), if_neg (not_true_of_eq_false m8)]

/-- Witness for `pass1_priority_ladder`: `--secondary-gray` matches both
the accent and the neutral groups and becomes an accent (0.90) with the
neutrals bucket untouched; `--white-positive` matches both the neutral and
the utility-success groups and becomes a neutral (0.95) with every utility
slot untouched; `--primary-brand-color` matches two primary patterns and is
classified primary (0.95). -/
theorem pass1_priority_ladder_witness :
    matchesAny accent_patterns (lowerStr "--secondary-gray") = true ∧
    matchesAny neutral_patterns (lowerStr "--secondary-gray") = true ∧
    (pass1Step initColorState
      ("--secondary-gray", "#123456")).classification.neutrals = [] ∧
    (pass1Step initColorState
      ("--secondary-gray", "#123456")).classification.accents = ["#123456"] ∧
    alookup "#123456"
        (pass1Step initColorState ("--secondary-gray", "#123456")).confidence
      = some ⟨"accent", 90, ["CSS variable name: --secondary-gray"]⟩ ∧
    matchesAny neutral_patterns (lowerStr "--white-positive") = true ∧
    matchesAny success_patterns (lowerStr "--white-positive") = true ∧
    (pass1Step initColorState
      ("--white-positive", "#fefefe")).classification.utility
      = ⟨none, none, none, none⟩ ∧
    (pass1Step initColorState
      ("--white-positive", "#fefefe")).classification.neutrals = ["#fefefe"] ∧
    alookup "#fefefe"
        (pass1Step initColorState ("--white-positive", "#fefefe")).confidence
      = some ⟨"neutral", 95, ["CSS variable name: --white-positive"]⟩ ∧
    alookup "#1a2b3c"
        (pass1Step initColorState ("--primary-brand-color", "#1a2b3c")).confidence
      = some ⟨"primary", 95, ["CSS variable name: --primary-brand-color"]⟩ := by
  have t1 := (pass1_priority_ladder initColorState "--secondary-gray" "#123456").2.1
    (by decide) (by decide)
  have t2 := (pass1_priority_ladder initColorState
    "--white-positive" "#fefefe").2.2.1 (by decide) (by decide) (by decide)
  have t3 := (pass1_priority_ladder initColorState
    "--primary-brand-color" "#1a2b3c").1 (by decide)
  exact ⟨by decide, by decide, t1.2.1, t1.2.2.2.1 (by decide), t1.2.2.2.2 (by decide),
    by decide, by decide, t2.2.2.1, t2.2.2.2.1 (by decide), t2.2.2.2.2 (by decide),
    t3.2.2.2.2 (by decide)⟩

/-- Witness for `confidence_record_first_wins`: a pre-existing record for
`#111111` survives a primary-matching variable with the same value, and a
pre-existing record for `Georgia` keeps its role/confidence/evidence
through the font pass and the hierarchy enrichment. -/
theorem confidence_record_first_wins_witness :
    alookup "#111111" (colorPassesFrom
        ⟨⟨[], [], [], ⟨none, none, none, none⟩⟩,
          [("#111111", ⟨"primary", 95, ["seed"]⟩)], ["#111111"]⟩
        ⟨some [("--main-x", "#111111")], some []⟩ []).confidence
      = some ⟨"primary", 95, ["seed"]⟩ ∧
    (alookup "Georgia" (fontPassFrom
        ⟨⟨none, none, [], none⟩,
          [("Georgia", ⟨"primary_heading", 90, ["seed2"], none, none⟩)], ["Georgia"]⟩
        ⟨some [("Georgia, serif", ⟨some ["h1"], some "16px"⟩)]⟩
        [("p", ⟨some "Georgia"⟩)]).confidence).map fontRecCore
      = some (fontRecCore ⟨"primary_heading", 90, ["seed2"], none, none⟩) :=
  confidence_record_first_wins _ _ _ _ _ (by decide) _ _ _ _ _ (by decide)

/-! ## Claim C7: pass 2 important selectors -/

/-- **C7**: with no CSS variables, a computed color under a selector from
the important list whose global frequency is at least 5 is appended to the
`primary` bucket and gets a record with role `primary`, confidence 0.75 and
the frequency evidence trail. -/
theorem pass2_important_primary (frequency : List (String × Nat)) (s prop v : String)
    (hs : s ∈ important_selectors)
    (hf : 5 ≤ (alookup v frequency).getD 0) :
    (classify_colors ⟨some [], some frequency⟩
        [(s, [(prop, v)])]).color_classification.primary = [v] ∧
    alookup v (classify_colors ⟨some [], some frequency⟩
        [(s, [(prop, v)])]).confidence_scores
      = some ⟨"primary", 75,
          ["Found in " ++ s ++ "." ++ prop,
           "High frequency: " ++ toString ((alookup v frequency).getD 0) ++ " uses",
           "Used in important element: " ++ s]⟩ := by
  have hmain : pass2Prop frequency s initColorState (prop, v)
      = recordIfAbsentC v ⟨"primary", 75,
          ["Found in " ++ s ++ "." ++ prop,
           "High frequency: " ++ toString ((alookup v frequency).getD 0) ++ " uses",
           "Used in important element: " ++ s]⟩
          { classification := ⟨[v], [], [], ⟨none, none, none, none⟩⟩,
            confidence := [], classified := addClassified v [] } := by
    simp only [pass2Prop, initColorState]
    rw [if_neg (List.not_mem_nil v), if_pos ⟨hs, hf⟩, if_neg (List.not_mem_nil v),
      List.nil_append]
  constructor
  · show (pass2Prop frequency s initColorState (prop, v)).classification.primary.take 2
      = [v]
    rw [hmain, recordIfAbsentC_classification]
    rfl
  · show alookup v (pass2Prop frequency s initColorState (prop, v)).confidence = _
    rw [hmain]
    exact recordIfAbsentC_lookup_new _ rfl

/-- Witness for `pass2_important_primary`: the spec's Scenario C. -/
theorem pass2_important_primary_witness :
    "h1" ∈ important_selectors ∧
    5 ≤ (alookup "#ff0000" [("#ff0000", 6)]).getD 0 ∧
    (classify_colors ⟨some [], some [("#ff0000", 6)]⟩
        [("h1", [("color", "#ff0000")])]).color_classification.primary = ["#ff0000"] ∧
    alookup "#ff0000" (classify_colors ⟨some [], some [("#ff0000", 6)]⟩
        [("h1", [("color", "#ff0000")])]).confidence_scores
      = some ⟨"primary", 75, ["Found in h1.color", "High frequency: 6 uses",
                              "Used in important element: h1"]⟩ := by
  have h := pass2_important_primary [("#ff0000", 6)] "h1" "color" "#ff0000"
    (by decide) (by decide)
  exact ⟨by decide, by decide, h.1, h.2⟩

/-! ## Claim C8: named-color variables and intensity modifiers -/

/-- **C8**: a CSS variable that reaches the named-color group (its name
matches none of the earlier groups) is dropped entirely — no bucket entry,
no record, no `classified_colors` entry — whenever its lower-cased name
carries an intensity modifier or ends in a numeric suffix; additionally,
the spec's Scenario B: of `--color-blue-light: #cce0ff` and
`--color-blue: #0000ff` only the latter becomes an accent, with confidence
0.85, and `#cce0ff` gets no record. -/
theorem named_color_modifier_excluded (st : ColorState) (name v : String)
    (h1 : matchesAny primary_patterns (lowerStr name) = false)
    (h2 : matchesAny accent_patterns (lowerStr name) = false)
    (h3 : matchesAny neutral_patterns (lowerStr name) = false)
    (h4 : matchesAny success_patterns (lowerStr name) = false)
    (h5 : matchesAny error_patterns (lowerStr name) = false)
    (h6 : matchesAny warning_patterns (lowerStr name) = false)
    (h7 : matchesAny info_patterns (lowerStr name) = false)
    (h8 : (!hasModifier (lowerStr name) && !endsDashNum (lowerStr name)) = false) :
    pass1Step st (name, v) = st ∧
    (classify_colors
        ⟨some [("--color-blue-light", "#cce0ff"), ("--color-blue", "#0000ff")], some []⟩
        []).color_classification.accents = ["#0000ff"] ∧
    alookup "#0000ff" (classify_colors
        ⟨some [("--color-blue-light", "#cce0ff"), ("--color-blue", "#0000ff")], some []⟩
        []).confidence_scores
      = some ⟨"accent", 85, ["CSS variable name: --color-blue", "Named color variable"]⟩ ∧
    alookup "#cce0ff" (classify_colors
        ⟨some [("--color-blue-light", "#cce0ff"), ("--color-blue", "#0000ff")], some []⟩
        []).confidence_scores = none := by
  refine ⟨?_, by decide, by decide, by decide⟩
  simp only [pass1Step]
  rw [h1, h2, h3, h4, h5, h6, h7, h8]
  simp

/-- Witness for `named_color_modifier_excluded`: the name
`--color-blue-light` matches the named-color group and carries the
`-light` modifier, and the step leaves the state unchanged. -/
theorem named_color_modifier_excluded_witness :
    matchesAny color_name_patterns (lowerStr "--color-blue-light") = true ∧
    hasModifier (lowerStr "--color-blue-light") = true ∧
    pass1Step initColorState ("--color-blue-light", "#cce0ff") = initColorState :=
  ⟨by decide, by decide,
    (named_color_modifier_excluded initColorState "--color-blue-light" "#cce0ff"
      (by decide) (by decide) (by decide) (by decide) (by decide) (by decide)
      (by decide) (by decide)).1⟩

/-! ## Claim C9: sparse and empty bundles -/

/-- **C9**: the classifiers are total Lean functions of their bundles (the
embedding has no failure path, mirroring the source's use of `.get` with
defaults), a bundle whose sub-structures are absent behaves exactly like one
whose sub-structures are empty, and empty bundles yield the all-empty
classification with empty confidence maps. -/
theorem empty_and_absent_bundles
    (c : List (String × List (String × String))) (d : List (String × StyleRecord)) :
    classify_colors ⟨none, none⟩ []
      = ⟨⟨[], [], [], ⟨none, none, none, none⟩⟩, []⟩ ∧
    classify_fonts ⟨none⟩ [] = ⟨⟨none, none, [], none⟩, []⟩ ∧
    classify_colors ⟨none, none⟩ c = classify_colors ⟨some [], some []⟩ c ∧
    classify_fonts ⟨none⟩ d = classify_fonts ⟨some []⟩ d :=
  ⟨rfl, rfl, rfl, rfl⟩

/-! ## Claim C10: records without bucket membership -/

/-- **C10**: an input on which the returned confidence map holds records for
colors that appear in no bucket and no utility slot of the returned
classification: `#303030` was appended to `primary` but dropped by the
final truncation to 2 (its record, created before truncation, remains), and
`#404040` was placed in `utility.success` and then replaced there by
`#505050` (its record also remains). -/
theorem record_without_membership :
    (classify_colors ⟨some [("--primary-one", "#101010"), ("--primary-two", "#202020"),
        ("--primary-three", "#303030"), ("--success-one", "#404040"),
        ("--success-two", "#505050")], some []⟩ []).color_classification.primary
      = ["#101010", "#202020"] ∧
    (classify_colors ⟨some [("--primary-one", "#101010"), ("--primary-two", "#202020"),
        ("--primary-three", "#303030"), ("--success-one", "#404040"),
        ("--success-two", "#505050")], some []⟩ []).color_classification.accents = [] ∧
    (classify_colors ⟨some [("--primary-one", "#101010"), ("--primary-two", "#202020"),
        ("--primary-three", "#303030"), ("--success-one", "#404040"),
        ("--success-two", "#505050")], some []⟩ []).color_classification.neutrals = [] ∧
    (classify_colors ⟨some [("--primary-one", "#101010"), ("--primary-two", "#202020"),
        ("--primary-three", "#303030"), ("--success-one", "#404040"),
        ("--success-two", "#505050")], some []⟩ []).color_classification.utility
      = ⟨some "#505050", none, none, none⟩ ∧
    alookup "#303030" (classify_colors ⟨some [("--primary-one", "#101010"),
        ("--primary-two", "#202020"), ("--primary-three", "#303030"),
        ("--success-one", "#404040"), ("--success-two", "#505050")], some []⟩
        []).confidence_scores
      = some ⟨"primary", 95, ["CSS variable name: --primary-three"]⟩ ∧
    alookup "#404040" (classify_colors ⟨some [("--primary-one", "#101010"),
        ("--primary-two", "#202020"), ("--primary-three", "#303030"),
        ("--success-one", "#404040"), ("--success-two", "#505050")], some []⟩
        []).confidence_scores
      = some ⟨"utility_success", 90, ["CSS variable name: --success-one"]⟩ := by
  decide
